import Mathlib

/-!
# Verification of the VOS (Visual-to-Olfactory) two-stage pipeline

Shallow embedding of the pipeline core found in `vlm_client.py`,
`schemas.py` and `main.py`:

* the pydantic schema families (`schemas.py`) are Lean structures, with
  JSON serialization (`model_dump_json`) and strict parsing
  (`model_validate_json`) modelled over an explicit `Json` tree;
* Stage 1 (`_step1_visual_analysis`) with its coverage validation and
  bounded retry recursion, including the exception-flow subtlety that the
  coverage-retry recursive call sits inside the surrounding `try` block;
* Stage 2 (`_step2_olfactory_inference`), a single-attempt call;
* prompt-template rendering with the reduced-variable fallback;
* the comparative-mode orchestration loop of `main.py` and the standard
  mode `analyze_video_sequence`.

Python floats are modelled as rationals (`ℚ`); the VLM provider is an
oracle producing one response per attempt.
-/

/-- A JSON document, as produced/consumed by `model_dump_json` /
`model_validate_json`.  Numbers are modelled as rationals. -/
inductive Json where
  | str (s : String)
  | num (q : ℚ)
  | bool (b : Bool)
  | null
  | arr (elems : List Json)
  | obj (fields : List (String × Json))

/-- Look up a key in a JSON object's field list (first match wins, as in a
Python dict where keys are unique). -/
def lookupField : List (String × Json) → String → Option Json
  | [], _ => none
  | (k, v) :: rest, key => if k = key then some v else lookupField rest key

/-- Field access on a JSON value: only objects have fields. -/
def Json.getField? (j : Json) (key : String) : Option Json :=
  match j with
  | .obj fields => lookupField fields key
  | _ => none

/-- Validate every element of a JSON array in order; the first failure
rejects the whole list (pydantic list-field semantics). -/
def optMapM {α : Type} (p : Json → Option α) : List Json → Option (List α)
  | [] => some []
  | j :: rest =>
    match p j with
    | none => none
    | some a =>
      match optMapM p rest with
      | none => none
      | some as => some (a :: as)

def Json.asStr? : Json → Option String
  | .str s => some s
  | _ => none

def Json.asNum? : Json → Option ℚ
  | .num q => some q
  | _ => none

def Json.asBool? : Json → Option Bool
  | .bool b => some b
  | _ => none

def Json.asStrList? : Json → Option (List String)
  | .arr xs => optMapM Json.asStr? xs
  | _ => none

def Json.asObj? : Json → Option (List (String × Json))
  | .obj fields => some fields
  | _ => none

/-- Parse a required field: missing key or failed element parse rejects the
document (pydantic raises a validation error naming the field). -/
def getReq {α : Type} (j : Json) (key : String) (p : Json → Option α) : Option α :=
  (j.getField? key).bind p

/-- Parse an `Optional[...]` field with default `None`: a missing key or an
explicit `null` yields `none`; a present value must parse. -/
def getOpt {α : Type} (j : Json) (key : String) (p : Json → Option α) :
    Option (Option α) :=
  match j.getField? key with
  | none => some none
  | some .null => some none
  | some v => (p v).map some

/-- Parse a list field with `default=[]`: a missing key yields `[]`. -/
def getListD {α : Type} (j : Json) (key : String) (p : Json → Option (List α)) :
    Option (List α) :=
  match j.getField? key with
  | none => some []
  | some v => p v

/-! ## Schema model (`schemas.py`)

Each pydantic `BaseModel` becomes a structure; `float` fields become `ℚ`,
`dict` metadata becomes an explicit JSON-object field list. -/

structure VisualObject where
  name : String
  proximity : String
  frame_coverage : ℚ
  motion : String
  visual_state_summary : String
deriving DecidableEq

structure EnvironmentalFactors where
  temperature : Option String
  airflow : Option String
  humidity : Option String
  confinement : Option String
deriving DecidableEq

structure OdorSource where
  material_part : String
  exposure_mode : String
deriving DecidableEq

structure IntensityModel where
  categorical_level : String
  numeric_level : ℚ
  trend : String
  justification : Option String
deriving DecidableEq

structure MolecularProfile where
  primary_volatiles : List String
  secondary_trace : List String
  heat_reaction_products : List String
deriving DecidableEq

structure DescriptorEvolution where
  list : List String
  descriptor_shift : Option String
  shift_type : Option String
deriving DecidableEq

structure MixtureComponent where
  source_object_id : Option String
  source_object_name : String
  weight : ℚ
deriving DecidableEq

structure UncertaintyModel where
  confidence : String
  assumptions : List String
deriving DecidableEq

structure NullScent where
  is_negligible : Bool
  note : Option String
deriving DecidableEq

structure TimeInterval where
  start_s : ℚ
  end_s : ℚ
deriving DecidableEq

structure ProximityData where
  category : String
  frame_coverage_start : ℚ
  frame_coverage_end : ℚ
  trend : String
deriving DecidableEq

structure EvidenceRef where
  object_name : String
  interval_time : TimeInterval
  proximity : Option ProximityData
deriving DecidableEq

structure OlfactoryEvent where
  event_id : String
  evidence_ref : EvidenceRef
  odor_source : OdorSource
  intensity : IntensityModel
  molecular_profile : MolecularProfile
  descriptors : DescriptorEvolution
  reasoning : String
  mixture_attribution : List MixtureComponent
  uncertainty : UncertaintyModel
  null_scent : Option NullScent
deriving DecidableEq

structure ObjectTrack where
  object_name : String
  event_ids : List String
deriving DecidableEq

structure FrameScentSampling where
  t_s : ℚ
  linked_event_ids : List String
  interpolated_intensity : ℚ
  dominant_descriptors : List String
deriving DecidableEq

/-- Final output schema for Stage 2. -/
structure OlfactoryAnalysisReport where
  meta : List (String × Json)
  olfactory_events : List OlfactoryEvent
  object_tracks : List ObjectTrack
  frame_scent_sampling : Option (List FrameScentSampling)

structure VisualInterval where
  object_name : String
  time : TimeInterval
  visual_state : String
  state_change : Bool
  proximity : ProximityData
  activity_level : String
  rationale : String
deriving DecidableEq

structure VisualFrameAnalysis where
  timestamp : ℚ
  frame_id : String
  scene : String
  environment : Option EnvironmentalFactors
  objects : List VisualObject
deriving DecidableEq

/-- Intermediate output for Step 1. -/
structure VisualAnalysisReport where
  meta : List (String × Json)
  visual_timeline : List VisualInterval
  frame_log : List VisualFrameAnalysis

/-! ## Serialization (`model_dump_json`)

Fields are emitted in declaration order; `Optional` fields serialize as
`null` when absent; list defaults always serialize. -/

def strListJson (xs : List String) : Json := .arr (xs.map Json.str)

def optStrJson : Option String → Json
  | none => .null
  | some s => .str s

def VisualObject.toJson (x : VisualObject) : Json :=
  .obj [("name", .str x.name), ("proximity", .str x.proximity),
        ("frame_coverage", .num x.frame_coverage), ("motion", .str x.motion),
        ("visual_state_summary", .str x.visual_state_summary)]

def EnvironmentalFactors.toJson (x : EnvironmentalFactors) : Json :=
  .obj [("temperature", optStrJson x.temperature),
        ("airflow", optStrJson x.airflow),
        ("humidity", optStrJson x.humidity),
        ("confinement", optStrJson x.confinement)]

def OdorSource.toJson (x : OdorSource) : Json :=
  .obj [("material_part", .str x.material_part),
        ("exposure_mode", .str x.exposure_mode)]

def IntensityModel.toJson (x : IntensityModel) : Json :=
  .obj [("categorical_level", .str x.categorical_level),
        ("numeric_level", .num x.numeric_level),
        ("trend", .str x.trend),
        ("justification", optStrJson x.justification)]

def MolecularProfile.toJson (x : MolecularProfile) : Json :=
  .obj [("primary_volatiles", strListJson x.primary_volatiles),
        ("secondary_trace", strListJson x.secondary_trace),
        ("heat_reaction_products", strListJson x.heat_reaction_products)]

def DescriptorEvolution.toJson (x : DescriptorEvolution) : Json :=
  .obj [("list", strListJson x.list),
        ("descriptor_shift", optStrJson x.descriptor_shift),
        ("shift_type", optStrJson x.shift_type)]

def MixtureComponent.toJson (x : MixtureComponent) : Json :=
  .obj [("source_object_id", optStrJson x.source_object_id),
        ("source_object_name", .str x.source_object_name),
        ("weight", .num x.weight)]

def UncertaintyModel.toJson (x : UncertaintyModel) : Json :=
  .obj [("confidence", .str x.confidence),
        ("assumptions", strListJson x.assumptions)]

def NullScent.toJson (x : NullScent) : Json :=
  .obj [("is_negligible", .bool x.is_negligible),
        ("note", optStrJson x.note)]

def TimeInterval.toJson (x : TimeInterval) : Json :=
  .obj [("start_s", .num x.start_s), ("end_s", .num x.end_s)]

def ProximityData.toJson (x : ProximityData) : Json :=
  .obj [("category", .str x.category),
        ("frame_coverage_start", .num x.frame_coverage_start),
        ("frame_coverage_end", .num x.frame_coverage_end),
        ("trend", .str x.trend)]

def EvidenceRef.toJson (x : EvidenceRef) : Json :=
  .obj [("object_name", .str x.object_name),
        ("interval_time", x.interval_time.toJson),
        ("proximity", match x.proximity with
                      | none => .null
                      | some p => p.toJson)]

def OlfactoryEvent.toJson (x : OlfactoryEvent) : Json :=
  .obj [("event_id", .str x.event_id),
        ("evidence_ref", x.evidence_ref.toJson),
        ("odor_source", x.odor_source.toJson),
        ("intensity", x.intensity.toJson),
        ("molecular_profile", x.molecular_profile.toJson),
        ("descriptors", x.descriptors.toJson),
        ("reasoning", .str x.reasoning),
        ("mixture_attribution", .arr (x.mixture_attribution.map MixtureComponent.toJson)),
        ("uncertainty", x.uncertainty.toJson),
        ("null_scent", match x.null_scent with
                       | none => .null
                       | some n => n.toJson)]

def ObjectTrack.toJson (x : ObjectTrack) : Json :=
  .obj [("object_name", .str x.object_name),
        ("event_ids", strListJson x.event_ids)]

def FrameScentSampling.toJson (x : FrameScentSampling) : Json :=
  .obj [("t_s", .num x.t_s),
        ("linked_event_ids", strListJson x.linked_event_ids),
        ("interpolated_intensity", .num x.interpolated_intensity),
        ("dominant_descriptors", strListJson x.dominant_descriptors)]

def OlfactoryAnalysisReport.toJson (x : OlfactoryAnalysisReport) : Json :=
  .obj [("meta", .obj x.meta),
        ("olfactory_events", .arr (x.olfactory_events.map OlfactoryEvent.toJson)),
        ("object_tracks", .arr (x.object_tracks.map ObjectTrack.toJson)),
        ("frame_scent_sampling", match x.frame_scent_sampling with
                                 | none => .null
                                 | some xs => .arr (xs.map FrameScentSampling.toJson))]

def VisualInterval.toJson (x : VisualInterval) : Json :=
  .obj [("object_name", .str x.object_name),
        ("time", x.time.toJson),
        ("visual_state", .str x.visual_state),
        ("state_change", .bool x.state_change),
        ("proximity", x.proximity.toJson),
        ("activity_level", .str x.activity_level),
        ("rationale", .str x.rationale)]

def VisualFrameAnalysis.toJson (x : VisualFrameAnalysis) : Json :=
  .obj [("timestamp", .num x.timestamp),
        ("frame_id", .str x.frame_id),
        ("scene", .str x.scene),
        ("environment", match x.environment with
                        | none => .null
                        | some e => e.toJson),
        ("objects", .arr (x.objects.map VisualObject.toJson))]

def VisualAnalysisReport.toJson (x : VisualAnalysisReport) : Json :=
  .obj [("meta", .obj x.meta),
        ("visual_timeline", .arr (x.visual_timeline.map VisualInterval.toJson)),
        ("frame_log", .arr (x.frame_log.map VisualFrameAnalysis.toJson))]

/-! ## Parsing (`model_validate_json`)

Strict structural validation: required fields must be present with the right
JSON type; `Optional` fields default to `none`; `Field(default=[])` lists
default to `[]`.  No range or ordering constraints are declared in
`schemas.py`, so none are checked here. -/

def VisualObject.fromJson? (j : Json) : Option VisualObject := do
  let name ← getReq j "name" Json.asStr?
  let proximity ← getReq j "proximity" Json.asStr?
  let frame_coverage ← getReq j "frame_coverage" Json.asNum?
  let motion ← getReq j "motion" Json.asStr?
  let visual_state_summary ← getReq j "visual_state_summary" Json.asStr?
  some ⟨name, proximity, frame_coverage, motion, visual_state_summary⟩

def EnvironmentalFactors.fromJson? (j : Json) : Option EnvironmentalFactors := do
  let temperature ← getOpt j "temperature" Json.asStr?
  let airflow ← getOpt j "airflow" Json.asStr?
  let humidity ← getOpt j "humidity" Json.asStr?
  let confinement ← getOpt j "confinement" Json.asStr?
  some ⟨temperature, airflow, humidity, confinement⟩

def OdorSource.fromJson? (j : Json) : Option OdorSource := do
  let material_part ← getReq j "material_part" Json.asStr?
  let exposure_mode ← getReq j "exposure_mode" Json.asStr?
  some ⟨material_part, exposure_mode⟩

def IntensityModel.fromJson? (j : Json) : Option IntensityModel := do
  let categorical_level ← getReq j "categorical_level" Json.asStr?
  let numeric_level ← getReq j "numeric_level" Json.asNum?
  let trend ← getReq j "trend" Json.asStr?
  let justification ← getOpt j "justification" Json.asStr?
  some ⟨categorical_level, numeric_level, trend, justification⟩

def MolecularProfile.fromJson? (j : Json) : Option MolecularProfile := do
  let primary_volatiles ← getReq j "primary_volatiles" Json.asStrList?
  let secondary_trace ← getListD j "secondary_trace" Json.asStrList?
  let heat_reaction_products ← getListD j "heat_reaction_products" Json.asStrList?
  some ⟨primary_volatiles, secondary_trace, heat_reaction_products⟩

def DescriptorEvolution.fromJson? (j : Json) : Option DescriptorEvolution := do
  let l ← getReq j "list" Json.asStrList?
  let descriptor_shift ← getOpt j "descriptor_shift" Json.asStr?
  let shift_type ← getOpt j "shift_type" Json.asStr?
  some ⟨l, descriptor_shift, shift_type⟩

def MixtureComponent.fromJson? (j : Json) : Option MixtureComponent := do
  let source_object_id ← getOpt j "source_object_id" Json.asStr?
  let source_object_name ← getReq j "source_object_name" Json.asStr?
  let weight ← getReq j "weight" Json.asNum?
  some ⟨source_object_id, source_object_name, weight⟩

def UncertaintyModel.fromJson? (j : Json) : Option UncertaintyModel := do
  let confidence ← getReq j "confidence" Json.asStr?
  let assumptions ← getListD j "assumptions" Json.asStrList?
  some ⟨confidence, assumptions⟩

def NullScent.fromJson? (j : Json) : Option NullScent := do
  let is_negligible ← getReq j "is_negligible" Json.asBool?
  let note ← getOpt j "note" Json.asStr?
  some ⟨is_negligible, note⟩

def TimeInterval.fromJson? (j : Json) : Option TimeInterval := do
  let start_s ← getReq j "start_s" Json.asNum?
  let end_s ← getReq j "end_s" Json.asNum?
  some ⟨start_s, end_s⟩

def ProximityData.fromJson? (j : Json) : Option ProximityData := do
  let category ← getReq j "category" Json.asStr?
  let frame_coverage_start ← getReq j "frame_coverage_start" Json.asNum?
  let frame_coverage_end ← getReq j "frame_coverage_end" Json.asNum?
  let trend ← getReq j "trend" Json.asStr?
  some ⟨category, frame_coverage_start, frame_coverage_end, trend⟩

def EvidenceRef.fromJson? (j : Json) : Option EvidenceRef := do
  let object_name ← getReq j "object_name" Json.asStr?
  let interval_time ← getReq j "interval_time" TimeInterval.fromJson?
  let proximity ← getOpt j "proximity" ProximityData.fromJson?
  some ⟨object_name, interval_time, proximity⟩

def OlfactoryEvent.fromJson? (j : Json) : Option OlfactoryEvent := do
  let event_id ← getReq j "event_id" Json.asStr?
  let evidence_ref ← getReq j "evidence_ref" EvidenceRef.fromJson?
  let odor_source ← getReq j "odor_source" OdorSource.fromJson?
  let intensity ← getReq j "intensity" IntensityModel.fromJson?
  let molecular_profile ← getReq j "molecular_profile" MolecularProfile.fromJson?
  let descriptors ← getReq j "descriptors" DescriptorEvolution.fromJson?
  let reasoning ← getReq j "reasoning" Json.asStr?
  let mixture_attribution ← getListD j "mixture_attribution"
    (fun v => match v with
              | .arr xs => optMapM MixtureComponent.fromJson? xs
              | _ => none)
  let uncertainty ← getReq j "uncertainty" UncertaintyModel.fromJson?
  let null_scent ← getOpt j "null_scent" NullScent.fromJson?
  some ⟨event_id, evidence_ref, odor_source, intensity, molecular_profile,
        descriptors, reasoning, mixture_attribution, uncertainty, null_scent⟩

def ObjectTrack.fromJson? (j : Json) : Option ObjectTrack := do
  let object_name ← getReq j "object_name" Json.asStr?
  let event_ids ← getReq j "event_ids" Json.asStrList?
  some ⟨object_name, event_ids⟩

def FrameScentSampling.fromJson? (j : Json) : Option FrameScentSampling := do
  let t_s ← getReq j "t_s" Json.asNum?
  let linked_event_ids ← getReq j "linked_event_ids" Json.asStrList?
  let interpolated_intensity ← getReq j "interpolated_intensity" Json.asNum?
  let dominant_descriptors ← getReq j "dominant_descriptors" Json.asStrList?
  some ⟨t_s, linked_event_ids, interpolated_intensity, dominant_descriptors⟩

def OlfactoryAnalysisReport.fromJson? (j : Json) : Option OlfactoryAnalysisReport := do
  let meta ← getReq j "meta" Json.asObj?
  let olfactory_events ← getReq j "olfactory_events"
    (fun v => match v with
              | .arr xs => optMapM OlfactoryEvent.fromJson? xs
              | _ => none)
  let object_tracks ← getReq j "object_tracks"
    (fun v => match v with
              | .arr xs => optMapM ObjectTrack.fromJson? xs
              | _ => none)
  let frame_scent_sampling ← getOpt j "frame_scent_sampling"
    (fun v => match v with
              | .arr xs => optMapM FrameScentSampling.fromJson? xs
              | _ => none)
  some ⟨meta, olfactory_events, object_tracks, frame_scent_sampling⟩

def VisualInterval.fromJson? (j : Json) : Option VisualInterval := do
  let object_name ← getReq j "object_name" Json.asStr?
  let time ← getReq j "time" TimeInterval.fromJson?
  let visual_state ← getReq j "visual_state" Json.asStr?
  let state_change ← getReq j "state_change" Json.asBool?
  let proximity ← getReq j "proximity" ProximityData.fromJson?
  let activity_level ← getReq j "activity_level" Json.asStr?
  let rationale ← getReq j "rationale" Json.asStr?
  some ⟨object_name, time, visual_state, state_change, proximity,
        activity_level, rationale⟩

def VisualFrameAnalysis.fromJson? (j : Json) : Option VisualFrameAnalysis := do
  let timestamp ← getReq j "timestamp" Json.asNum?
  let frame_id ← getReq j "frame_id" Json.asStr?
  let scene ← getReq j "scene" Json.asStr?
  let environment ← getOpt j "environment" EnvironmentalFactors.fromJson?
  let objects ← getReq j "objects"
    (fun v => match v with
              | .arr xs => optMapM VisualObject.fromJson? xs
              | _ => none)
  some ⟨timestamp, frame_id, scene, environment, objects⟩

def VisualAnalysisReport.fromJson? (j : Json) : Option VisualAnalysisReport := do
  let meta ← getReq j "meta" Json.asObj?
  let visual_timeline ← getReq j "visual_timeline"
    (fun v => match v with
              | .arr xs => optMapM VisualInterval.fromJson? xs
              | _ => none)
  let frame_log ← getReq j "frame_log"
    (fun v => match v with
              | .arr xs => optMapM VisualFrameAnalysis.fromJson? xs
              | _ => none)
  some ⟨meta, visual_timeline, frame_log⟩

/-! ## Prompt templates (`str.format` with reduced-variable fallback)

A template is a sequence of literal chunks and named placeholders; `format`
substitutes values left to right and raises `KeyError` (carrying the key
name) at the first placeholder missing from the variable set. -/

inductive TemplateChunk where
  | lit (s : String)
  | var (name : String)
deriving DecidableEq

def Template : Type := List TemplateChunk

def lookupVar : List (String × String) → String → Option String
  | [], _ => none
  | (k, v) :: rest, key => if k = key then some v else lookupVar rest key

/-- `prompt_template.format(**vars)`: error value is the missing key name. -/
def renderTemplate : Template → List (String × String) → Except String String
  | [], _ => .ok ""
  | .lit s :: rest, vars => (renderTemplate rest vars).map (s ++ .)
  | .var k :: rest, vars =>
    match lookupVar vars k with
    | none => .error k
    | some v => (renderTemplate rest vars).map (v ++ .)

/-- The `try format(full) except KeyError: format(reduced)` pattern used at
both call sites in `vlm_client.py`; a failure of the reduced render
propagates. -/
def renderWithFallback (t : Template) (full reduced : List (String × String)) :
    Except String String :=
  match renderTemplate t full with
  | .ok s => .ok s
  | .error _ => renderTemplate t reduced

/-- Full Stage-1 variable set (`fps`, `estimated_duration`,
`expected_entries`, `extra_requirements`). -/
def s1FullVars (fps dur expected extra : String) : List (String × String) :=
  [("fps", fps), ("estimated_duration", dur),
   ("expected_entries", expected), ("extra_requirements", extra)]

/-- Reduced Stage-1 fallback variable set (`fps`, `estimated_duration`). -/
def s1ReducedVars (fps dur : String) : List (String × String) :=
  [("fps", fps), ("estimated_duration", dur)]

/-- Full Stage-2 variable set (`visual_json`, `extra_rules`). -/
def s2FullVars (vj rules : String) : List (String × String) :=
  [("visual_json", vj), ("extra_rules", rules)]

/-- Reduced Stage-2 fallback variable set (`visual_json`). -/
def s2ReducedVars (vj : String) : List (String × String) :=
  [("visual_json", vj)]

/-! ## Stage-1 engine (`_step1_visual_analysis`) -/

/-- Python `int()` on a float: truncation toward zero. -/
def pyInt (q : ℚ) : ℤ := if 0 ≤ q then ⌊q⌋ else ⌈q⌉

/-- Last `frame_log` timestamp (`report.frame_log[-1].timestamp`); only
consulted when the log is non-empty. -/
def lastTimestamp (lg : List VisualFrameAnalysis) : ℚ :=
  ((lg.getLast?).map VisualFrameAnalysis.timestamp).getD 0

/-- The Stage-1 coverage gate (lines 138–157 of `vlm_client.py`): an empty
`frame_log` is always invalid; otherwise accept iff
`last_timestamp / estimated_duration ≥ 0.95` and
`entry_count ≥ expected_entries * 0.8`. -/
def coverageValid (lg : List VisualFrameAnalysis) (dur : ℚ) (expected : ℤ) :
    Bool :=
  if lg.isEmpty then false
  else
    decide (lastTimestamp lg / dur ≥ 95 / 100) &&
    decide ((lg.length : ℚ) ≥ (expected : ℚ) * (8 / 10))

/-- One provider interaction: the call raised a transport error, returned
empty text, or returned text (already decoded as a JSON tree). -/
inductive VLMResponse where
  | failure
  | empty
  | text (j : Json)

/-- The exceptions a stage can surface. -/
inductive PipeError where
  | transport
  | emptyResponse
  | schemaViolation
  | templateRender (key : String)
deriving DecidableEq

/-- Decode one Stage-1 provider response exactly as lines 124–136 do:
transport failure and empty text raise; otherwise the text is validated
against `VisualAnalysisReport`. -/
def decodeVisual : VLMResponse → Except PipeError VisualAnalysisReport
  | .failure => .error .transport
  | .empty => .error .emptyResponse
  | .text j =>
    match VisualAnalysisReport.fromJson? j with
    | some r => .ok r
    | none => .error .schemaViolation

/-- The Stage-1 prompt render (lines 96–108): try the full variable set,
fall back to the reduced one on a missing-key error. -/
def step1Render (tmpl : Template) (fps : ℕ) (dur : ℚ) (expected : ℤ)
    (extra : String) : Except String String :=
  renderWithFallback tmpl
    (s1FullVars (toString fps) (toString dur) (toString expected) extra)
    (s1ReducedVars (toString fps) (toString dur))

/-- One activation of `_step1_visual_analysis` at a given attempt number.

Returns the result together with the chronological list of attempt numbers
at which the provider was actually called.  The model mirrors the source's
exception flow: the template render (lines 92–111) happens before the
provider `try` block, so its failure makes no provider call and is never
retried here; the coverage-rejection retry (line 162) sits *inside* the
`try`, so an exception escaping that recursive call is caught by this
activation's handler, which retries once more (line 172); an exception
escaping a handler-originated recursive call propagates.

The source guards both retry sites with `attempt < 3` and recurses with
`attempt + 1`; every activation therefore has `retriesLeft = 3 - attempt`
retries available, and the guard is expressed here as a match on
`retriesLeft`, which keeps the recursion structural (the entry point below
starts at `attempt = 1`, `retriesLeft = 2`). -/
def step1Go (tmpl : Template) (oracle : ℕ → VLMResponse) (fps : ℕ) (dur : ℚ)
    (expected : ℤ) (extra : String) : (retriesLeft attempt : ℕ) →
    Except PipeError VisualAnalysisReport × List ℕ
  | retriesLeft, attempt =>
    match step1Render tmpl fps dur expected extra with
    | .error k => (.error (.templateRender k), [])
    | .ok _prompt =>
      match decodeVisual (oracle attempt) with
      | .error e =>
        match retriesLeft with
        | r + 1 =>
          let rec1 := step1Go tmpl oracle fps dur expected extra r (attempt + 1)
          (rec1.1, attempt :: rec1.2)
        | 0 => (.error e, [attempt])
      | .ok report =>
        if coverageValid report.frame_log dur expected then
          (.ok report, [attempt])
        else
          match retriesLeft with
          | r + 1 =>
            let rec1 := step1Go tmpl oracle fps dur expected extra r (attempt + 1)
            match rec1.1 with
            | .ok rep => (.ok rep, attempt :: rec1.2)
            | .error _ =>
              let rec2 := step1Go tmpl oracle fps dur expected extra r (attempt + 1)
              (rec2.1, attempt :: (rec1.2 ++ rec2.2))
          | 0 => (.ok report, [attempt])

/-- Entry point of Stage 1 (`attempt = 1`, so two retries remain),
computing `estimated_duration = frame_count / fps` and
`expected_entries = int(estimated_duration)`. -/
def step1_visual_analysis (tmpl : Template) (oracle : ℕ → VLMResponse)
    (frame_count fps : ℕ) (extra : String) :
    Except PipeError VisualAnalysisReport × List ℕ :=
  let dur : ℚ := (frame_count : ℚ) / (fps : ℚ)
  step1Go tmpl oracle fps dur (pyInt dur) extra 2 1

/-! ## Stage-2 engine (`_step2_olfactory_inference`) -/

/-- The Stage-2 prompt render (lines 200–209): full set, then the
`visual_json`-only fallback. -/
def step2Render (tmpl : Template) (visual_json rules : String) :
    Except String String :=
  renderWithFallback tmpl (s2FullVars visual_json rules)
    (s2ReducedVars visual_json)

/-- The single-attempt Stage-2 call.  Returns the result together with the
number of provider calls made (0 when the template render fails before the
call, 1 otherwise — there is no retry loop). -/
def step2_olfactory_inference (tmpl : Template) (visual_json rules : String)
    (resp : VLMResponse) :
    Except PipeError OlfactoryAnalysisReport × ℕ :=
  match step2Render tmpl visual_json rules with
  | .error k => (.error (.templateRender k), 0)
  | .ok _prompt =>
    match resp with
    | .failure => (.error .transport, 1)
    | .empty => (.error .emptyResponse, 1)
    | .text j =>
      match OlfactoryAnalysisReport.fromJson? j with
      | some r => (.ok r, 1)
      | none => (.error .schemaViolation, 1)

/-! ## Orchestration (`main.py` and `analyze_video_sequence`) -/

/-- Python dict assignment `d[key] = v`: overwrite in place if the key
exists, else append (insertion order preserved). -/
def setKey : List (String × Json) → String → Json → List (String × Json)
  | [], key, v => [(key, v)]
  | (k, w) :: rest, key, v =>
    if k = key then (k, v) :: rest else (k, w) :: setKey rest key v

/-- The metadata stamping performed by `main.py` (lines 85–87) after
inference and before serialization. -/
def stampMeta (r : OlfactoryAnalysisReport) (video_path generated_at cond : String) :
    OlfactoryAnalysisReport :=
  { r with
    meta := setKey (setKey (setKey r.meta "source_video" (.str video_path))
                     "generated_at" (.str generated_at))
              "experiment_condition" (.str cond) }

/-- One experiment condition of the comparative loop. -/
structure ExperimentCondition where
  name : String
  visual_prompt : String
  olfactory_prompt : String
  out_path : String

/-- The `experiments` list of `main.py` (lines 66–70). -/
def experiments (path_ours path_over path_naive : String) :
    List ExperimentCondition :=
  [⟨"OURS (System-generated Plan)", "step1_visual.txt",
    "step2_olfactory.txt", path_ours⟩,
   ⟨"BASELINE 1 (Over-Inclusive)", "step1_visual_overinclusive.txt",
    "step2_olfactory_overinclusive.txt", path_over⟩,
   ⟨"BASELINE 2 (Naive/Object-Based)", "step1_visual_naive.txt",
    "step2_olfactory_naive.txt", path_naive⟩]

/-- Stage 1 followed by Stage 2 for one pair of prompt files:
`perform_visual_analysis` then `perform_olfactory_inference`.
`tmplOf` maps a prompt file name to its template, `o1`/`o2` give the
provider's responses per prompt file (and, for Stage 1, per attempt), and
`dump` is the text serialization of the visual report embedded in the
Stage-2 prompt. -/
def runCondition (tmplOf : String → Template) (o1 : String → ℕ → VLMResponse)
    (o2 : String → VLMResponse) (dump : VisualAnalysisReport → String)
    (frame_count fps : ℕ) (extra rules : String) (vp op : String) :
    Except PipeError OlfactoryAnalysisReport :=
  match step1_visual_analysis (tmplOf vp) (o1 vp) frame_count fps extra with
  | (.error e, _) => .error e
  | (.ok v, _) => (step2_olfactory_inference (tmplOf op) (dump v) rules (o2 op)).1

/-- The comparative-mode loop of `main.py` (lines 72–94): each condition
runs independently inside its own `try`; on success its report is stamped
with `source_video`, `generated_at` and `experiment_condition` and written
to the condition's output path; on any exception the condition is skipped.
The result is the list of written artifacts (path and serialized
document). -/
def runComparative (tmplOf : String → Template) (o1 : String → ℕ → VLMResponse)
    (o2 : String → VLMResponse) (dump : VisualAnalysisReport → String)
    (frame_count fps : ℕ) (extra rules : String)
    (video_path generated_at path_ours path_over path_naive : String) :
    List (String × Json) :=
  (experiments path_ours path_over path_naive).filterMap fun c =>
    match runCondition tmplOf o1 o2 dump frame_count fps extra rules
        c.visual_prompt c.olfactory_prompt with
    | .error _ => none
    | .ok report =>
      some (c.out_path,
            (stampMeta report video_path generated_at c.name).toJson)

/-- The standard ("Ours") mode `analyze_video_sequence` of `vlm_client.py`
(lines 246–259): Stage 1 with the default prompt, then Stage 2 with the
default prompt; the final report is returned as-is — no metadata is
attached here. -/
def analyze_video_sequence (tmplOf : String → Template)
    (o1 : String → ℕ → VLMResponse) (o2 : String → VLMResponse)
    (dump : VisualAnalysisReport → String) (frame_count fps : ℕ)
    (extra rules : String) : Except PipeError OlfactoryAnalysisReport :=
  runCondition tmplOf o1 o2 dump frame_count fps extra rules
    "step1_visual.txt" "step2_olfactory.txt"

/-! ## Concrete fixtures -/

/-- A frame-log entry with a given timestamp. -/
def mkFrame (t : ℚ) : VisualFrameAnalysis := ⟨t, "f", "scene", none, []⟩

/-- A visual report whose frame log carries the given timestamps. -/
def visReport (ts : List ℚ) : VisualAnalysisReport := ⟨[], [], ts.map mkFrame⟩

/-- Nine log entries, last timestamp 9.6 (the accepted example). -/
def ts96 : List ℚ := [(1.6 : ℚ), 2.6, 3.6, 4.6, 5.6, 6.6, 7.6, 8.6, 9.6]

/-- Nine log entries, last timestamp 9.0 (the rejected example). -/
def ts90 : List ℚ := [(1 : ℚ), 2, 3, 4, 5, 6, 7, 8, 9]

/-- An oracle answering the rejected report on attempt 1 and the accepted
one afterwards. -/
def oracle90 : ℕ → VLMResponse := fun a =>
  if a = 1 then .text (visReport ts90).toJson else .text (visReport ts96).toJson

/-- A minimal well-formed olfactory report with no metadata keys. -/
def olfEmpty : OlfactoryAnalysisReport := ⟨[], [], [], none⟩

/-- A single-timestamp visual report with full coverage for a 1-second
clip (4 frames at 4 fps). -/
def visOne : VisualAnalysisReport := visReport [(1 : ℚ)]

/-- An olfactory report with one event carrying an arbitrary evidence
interval and arbitrary proximity coverage fractions. -/
def intervalReport (s e c1 c2 : ℚ) : OlfactoryAnalysisReport :=
  ⟨[], [⟨"e1", ⟨"orange", ⟨s, e⟩, some ⟨"near", c1, c2, "stable"⟩⟩,
        ⟨"peel", "exposed"⟩, ⟨"low", 1/2, "plateau", none⟩,
        ⟨["limonene"], [], []⟩, ⟨["citrus", "zesty", "fresh"], none, none⟩,
        "peel ruptured", [], ⟨"high", []⟩, none⟩], [], none⟩

/-- Its serialized document form. -/
def intervalDoc (s e c1 c2 : ℚ) : Json := (intervalReport s e c1 c2).toJson

/-- A document whose event interval runs backwards (end 1 before start 5)
and whose coverage fractions (2 and -1) lie outside `[0, 1]`. -/
def c5Doc : Json := intervalDoc 5 1 2 (-1)

/-- The prompt-template table used by concrete orchestration runs: every
prompt file is the empty template (which always renders). -/
def tmplEmpty : String → Template := fun _ => []

/-- Stage-1 oracle for concrete orchestration runs: always the
full-coverage one-second report. -/
def o1good : String → ℕ → VLMResponse := fun _ _ => .text visOne.toJson

/-- Stage-2 oracle for concrete orchestration runs: a well-formed report
for every condition. -/
def o2good : String → VLMResponse := fun _ => .text olfEmpty.toJson

/-- Stage-2 oracle whose provider call fails (raises) exactly for the
BASELINE_NAIVE condition's prompt. -/
def o2naiveFails : String → VLMResponse := fun op =>
  if op = "step2_olfactory_naive.txt" then .failure else .text olfEmpty.toJson

/-- Stage-2 oracle whose provider call fails (raises) exactly for the
OURS condition's prompt — the first condition of the loop. -/
def o2oursFails : String → VLMResponse := fun op =>
  if op = "step2_olfactory.txt" then .failure else .text olfEmpty.toJson

/-- Text serialization of the visual report used in concrete runs (its
content never influences control flow). -/
def dumpEmpty : VisualAnalysisReport → String := fun _ => ""


/-! ## Round-trip lemmas: parsing inverts serialization -/

theorem optMapM_map {α : Type} (f : α → Json) (p : Json → Option α)
    (h : ∀ x, p (f x) = some x) (xs : List α) :
    optMapM p (xs.map f) = some xs := by
  induction xs with
  | nil => rfl
  | cons a t ih => simp [optMapM, h, ih]

theorem asStrList_strList (xs : List String) :
    Json.asStrList? (strListJson xs) = some xs := by
  simp [Json.asStrList?, strListJson, optMapM_map Json.str Json.asStr? (fun _ => rfl)]

theorem visualObject_fromJson_toJson (x : VisualObject) :
    VisualObject.fromJson? x.toJson = some x := rfl

theorem environmentalFactors_fromJson_toJson (x : EnvironmentalFactors) :
    EnvironmentalFactors.fromJson? x.toJson = some x := by
  cases x with
  | mk t a h c => cases t <;> cases a <;> cases h <;> cases c <;> rfl

theorem odorSource_fromJson_toJson (x : OdorSource) :
    OdorSource.fromJson? x.toJson = some x := rfl

theorem intensityModel_fromJson_toJson (x : IntensityModel) :
    IntensityModel.fromJson? x.toJson = some x := by
  cases x with
  | mk c n t j => cases j <;> rfl

theorem molecularProfile_fromJson_toJson (x : MolecularProfile) :
    MolecularProfile.fromJson? x.toJson = some x := by
  simp [MolecularProfile.fromJson?, MolecularProfile.toJson, getReq, getListD,
        Json.getField?, lookupField, asStrList_strList]

theorem descriptorEvolution_fromJson_toJson (x : DescriptorEvolution) :
    DescriptorEvolution.fromJson? x.toJson = some x := by
  cases x with
  | mk l d s =>
    cases d <;> cases s <;>
      simp [DescriptorEvolution.fromJson?, DescriptorEvolution.toJson, getReq,
            getOpt, Json.getField?, lookupField, asStrList_strList, optStrJson,
            Json.asStr?]

theorem mixtureComponent_fromJson_toJson (x : MixtureComponent) :
    MixtureComponent.fromJson? x.toJson = some x := by
  cases x with
  | mk i n w => cases i <;> rfl

theorem uncertaintyModel_fromJson_toJson (x : UncertaintyModel) :
    UncertaintyModel.fromJson? x.toJson = some x := by
  simp [UncertaintyModel.fromJson?, UncertaintyModel.toJson, getReq, getListD,
        Json.getField?, lookupField, asStrList_strList, Json.asStr?]

theorem nullScent_fromJson_toJson (x : NullScent) :
    NullScent.fromJson? x.toJson = some x := by
  cases x with
  | mk b n => cases n <;> rfl

theorem timeInterval_fromJson_toJson (x : TimeInterval) :
    TimeInterval.fromJson? x.toJson = some x := rfl

theorem proximityData_fromJson_toJson (x : ProximityData) :
    ProximityData.fromJson? x.toJson = some x := rfl

theorem evidenceRef_fromJson_toJson (x : EvidenceRef) :
    EvidenceRef.fromJson? x.toJson = some x := by
  cases x with
  | mk n t p => cases p <;> rfl

theorem olfactoryEvent_fromJson_toJson (x : OlfactoryEvent) :
    OlfactoryEvent.fromJson? x.toJson = some x := by
  cases x with
  | mk id ev od it mp de re mx un ns =>
    have hmix := optMapM_map MixtureComponent.toJson MixtureComponent.fromJson?
      mixtureComponent_fromJson_toJson mx
    cases ns with
    | none =>
      simp [OlfactoryEvent.fromJson?, OlfactoryEvent.toJson, getReq, getOpt,
            getListD, Json.getField?, lookupField,
            evidenceRef_fromJson_toJson, odorSource_fromJson_toJson,
            intensityModel_fromJson_toJson, molecularProfile_fromJson_toJson,
            descriptorEvolution_fromJson_toJson, uncertaintyModel_fromJson_toJson,
            Json.asStr?, hmix]
    | some ns =>
      cases ns with
      | mk b note =>
        cases note <;>
          simp [OlfactoryEvent.fromJson?, OlfactoryEvent.toJson, getReq, getOpt,
                getListD, Json.getField?, lookupField,
                evidenceRef_fromJson_toJson, odorSource_fromJson_toJson,
                intensityModel_fromJson_toJson, molecularProfile_fromJson_toJson,
                descriptorEvolution_fromJson_toJson,
                uncertaintyModel_fromJson_toJson, Json.asStr?, Json.asBool?,
                NullScent.toJson, NullScent.fromJson?, optStrJson, hmix]

theorem objectTrack_fromJson_toJson (x : ObjectTrack) :
    ObjectTrack.fromJson? x.toJson = some x := by
  simp [ObjectTrack.fromJson?, ObjectTrack.toJson, getReq, Json.getField?,
        lookupField, asStrList_strList, Json.asStr?]

theorem frameScentSampling_fromJson_toJson (x : FrameScentSampling) :
    FrameScentSampling.fromJson? x.toJson = some x := by
  simp [FrameScentSampling.fromJson?, FrameScentSampling.toJson, getReq,
        Json.getField?, lookupField, asStrList_strList, Json.asNum?]

theorem olfactoryAnalysisReport_fromJson_toJson (x : OlfactoryAnalysisReport) :
    OlfactoryAnalysisReport.fromJson? x.toJson = some x := by
  cases x with
  | mk me ev tr fs =>
    cases fs <;>
      simp [OlfactoryAnalysisReport.fromJson?, OlfactoryAnalysisReport.toJson,
            getReq, getOpt, Json.getField?, lookupField, Json.asObj?,
            optMapM_map OlfactoryEvent.toJson OlfactoryEvent.fromJson?
              olfactoryEvent_fromJson_toJson,
            optMapM_map ObjectTrack.toJson ObjectTrack.fromJson?
              objectTrack_fromJson_toJson,
            optMapM_map FrameScentSampling.toJson FrameScentSampling.fromJson?
              frameScentSampling_fromJson_toJson]

theorem visualInterval_fromJson_toJson (x : VisualInterval) :
    VisualInterval.fromJson? x.toJson = some x := rfl

theorem visualFrameAnalysis_fromJson_toJson (x : VisualFrameAnalysis) :
    VisualFrameAnalysis.fromJson? x.toJson = some x := by
  cases x with
  | mk ts fi sc en ob =>
    have hobj := optMapM_map VisualObject.toJson VisualObject.fromJson?
      visualObject_fromJson_toJson ob
    cases en with
    | none =>
      simp [VisualFrameAnalysis.fromJson?, VisualFrameAnalysis.toJson, getReq,
            getOpt, Json.getField?, lookupField, Json.asNum?, Json.asStr?, hobj]
    | some en =>
      cases en with
      | mk t a h c =>
        cases t <;> cases a <;> cases h <;> cases c <;>
          simp [VisualFrameAnalysis.fromJson?, VisualFrameAnalysis.toJson, getReq,
                getOpt, Json.getField?, lookupField, Json.asNum?, Json.asStr?,
                EnvironmentalFactors.toJson, EnvironmentalFactors.fromJson?,
                optStrJson, hobj]

theorem visualAnalysisReport_fromJson_toJson (x : VisualAnalysisReport) :
    VisualAnalysisReport.fromJson? x.toJson = some x := by
  simp [VisualAnalysisReport.fromJson?, VisualAnalysisReport.toJson, getReq,
        Json.getField?, lookupField, Json.asObj?,
        optMapM_map VisualInterval.toJson VisualInterval.fromJson?
          visualInterval_fromJson_toJson,
        optMapM_map VisualFrameAnalysis.toJson VisualFrameAnalysis.fromJson?
          visualFrameAnalysis_fromJson_toJson]

/-! ## Helper lemmas -/

theorem lookupField_setKey_self (m : List (String × Json)) (k : String) (v : Json) :
    lookupField (setKey m k v) k = some v := by
  induction m with
  | nil => simp [setKey, lookupField]
  | cons p rest ih =>
    obtain ⟨k', w⟩ := p
    by_cases h : k' = k <;> simp [setKey, lookupField, h, ih]

theorem lookupField_setKey_other (m : List (String × Json)) (k k' : String)
    (v : Json) (h : k' ≠ k) :
    lookupField (setKey m k v) k' = lookupField m k' := by
  have hk : ¬(k = k') := fun hh => h hh.symm
  induction m with
  | nil =>
    simp only [setKey, lookupField]
    rw [if_neg hk]
  | cons p rest ih =>
    obtain ⟨k0, w⟩ := p
    by_cases h0 : k0 = k
    · subst h0
      simp only [setKey, if_pos rfl, lookupField]
      rw [if_neg hk, if_neg hk]
    · simp only [setKey, if_neg h0, lookupField, ih]

/-- If every variable of the reduced set is also bound in the full set,
a successful reduced render forces a successful full render. -/
theorem renderTemplate_ok_of_subset (full reduced : List (String × String))
    (hsub : ∀ k v, lookupVar reduced k = some v → ∃ w, lookupVar full k = some w) :
    ∀ t : Template, (∃ s, renderTemplate t reduced = .ok s) →
      ∃ s, renderTemplate t full = .ok s := by
  intro t
  induction t with
  | nil => intro _; exact ⟨"", rfl⟩
  | cons c rest ih =>
    intro ⟨s, hs⟩
    cases c with
    | lit l =>
      simp only [renderTemplate] at hs ⊢
      cases hrest : renderTemplate rest reduced with
      | error k => rw [hrest] at hs; simp [Except.map] at hs
      | ok s' =>
        obtain ⟨s'', hs''⟩ := ih ⟨s', hrest⟩
        exact ⟨l ++ s'', by rw [hs'']; rfl⟩
    | var k =>
      simp only [renderTemplate] at hs ⊢
      cases hk : lookupVar reduced k with
      | none => rw [hk] at hs; simp at hs
      | some v =>
        rw [hk] at hs
        obtain ⟨w, hw⟩ := hsub k v hk
        rw [hw]
        cases hrest : renderTemplate rest reduced with
        | error k0 => rw [hrest] at hs; simp [Except.map] at hs
        | ok s' =>
          obtain ⟨s'', hs''⟩ := ih ⟨s', hrest⟩
          exact ⟨w ++ s'', by rw [hs'']; rfl⟩

/-- An `Except` is either a success or an error. -/
theorem except_ok_or_error {ε α : Type} (x : Except ε α) :
    (∃ a, x = .ok a) ∨ (∃ e, x = .error e) := by
  cases x with
  | ok a => exact .inl ⟨a, rfl⟩
  | error e => exact .inr ⟨e, rfl⟩

/-! ## Concrete evaluation lemmas -/

theorem coverage_ts96_ok : coverageValid (ts96.map mkFrame) 10 10 = true := by
  norm_num [coverageValid, lastTimestamp, ts96, mkFrame]

theorem coverage_ts90_rejected : coverageValid (ts90.map mkFrame) 10 10 = false := by
  norm_num [coverageValid, lastTimestamp, ts90, mkFrame]

theorem coverage_ts90_all_attempts : ∀ _a : ℕ,
    coverageValid (visReport ts90).frame_log (((40 : ℕ) : ℚ) / ((4 : ℕ) : ℚ))
      (pyInt (((40 : ℕ) : ℚ) / ((4 : ℕ) : ℚ))) = false := by
  intro _a
  norm_num [coverageValid, lastTimestamp, ts90, mkFrame, visReport, pyInt]

theorem runCondition_good_eval (vp op : String) :
    runCondition tmplEmpty o1good o2good dumpEmpty 4 4 "" "" vp op
      = .ok olfEmpty := by
  norm_num [runCondition, step1_visual_analysis, step1Go, step1Render, tmplEmpty,
            o1good, decodeVisual, visualAnalysisReport_fromJson_toJson,
            coverageValid, lastTimestamp, visOne, visReport, mkFrame, pyInt,
            renderWithFallback, renderTemplate, step2_olfactory_inference,
            step2Render, o2good, dumpEmpty,
            olfactoryAnalysisReport_fromJson_toJson]

theorem runCondition_naive_split_ours :
    runCondition tmplEmpty o1good o2naiveFails dumpEmpty 4 4 "" ""
      "step1_visual.txt" "step2_olfactory.txt" = .ok olfEmpty := by
  have hne : o2naiveFails "step2_olfactory.txt" = .text olfEmpty.toJson := by
    simp [o2naiveFails]
  norm_num [hne, runCondition, step1_visual_analysis, step1Go, step1Render, tmplEmpty,
            o1good, decodeVisual, visualAnalysisReport_fromJson_toJson,
            coverageValid, lastTimestamp, visOne, visReport, mkFrame, pyInt,
            renderWithFallback, renderTemplate, step2_olfactory_inference,
            step2Render, o2naiveFails, dumpEmpty,
            olfactoryAnalysisReport_fromJson_toJson]
  simp [olfactoryAnalysisReport_fromJson_toJson]

theorem runCondition_naive_split_over :
    runCondition tmplEmpty o1good o2naiveFails dumpEmpty 4 4 "" ""
      "step1_visual_overinclusive.txt" "step2_olfactory_overinclusive.txt"
      = .ok olfEmpty := by
  have hne : o2naiveFails "step2_olfactory_overinclusive.txt"
      = .text olfEmpty.toJson := by
    simp [o2naiveFails]
  norm_num [hne, runCondition, step1_visual_analysis, step1Go, step1Render, tmplEmpty,
            o1good, decodeVisual, visualAnalysisReport_fromJson_toJson,
            coverageValid, lastTimestamp, visOne, visReport, mkFrame, pyInt,
            renderWithFallback, renderTemplate, step2_olfactory_inference,
            step2Render, o2naiveFails, dumpEmpty,
            olfactoryAnalysisReport_fromJson_toJson]
  simp [olfactoryAnalysisReport_fromJson_toJson]

theorem runCondition_naive_split_naive :
    runCondition tmplEmpty o1good o2naiveFails dumpEmpty 4 4 "" ""
      "step1_visual_naive.txt" "step2_olfactory_naive.txt"
      = .error .transport := by
  norm_num [runCondition, step1_visual_analysis, step1Go, step1Render, tmplEmpty,
            o1good, decodeVisual, visualAnalysisReport_fromJson_toJson,
            coverageValid, lastTimestamp, visOne, visReport, mkFrame, pyInt,
            renderWithFallback, renderTemplate, step2_olfactory_inference,
            step2Render, o2naiveFails, dumpEmpty,
            olfactoryAnalysisReport_fromJson_toJson]

theorem runCondition_ours_split_ours :
    runCondition tmplEmpty o1good o2oursFails dumpEmpty 4 4 "" ""
      "step1_visual.txt" "step2_olfactory.txt" = .error .transport := by
  norm_num [runCondition, step1_visual_analysis, step1Go, step1Render, tmplEmpty,
            o1good, decodeVisual, visualAnalysisReport_fromJson_toJson,
            coverageValid, lastTimestamp, visOne, visReport, mkFrame, pyInt,
            renderWithFallback, renderTemplate, step2_olfactory_inference,
            step2Render, o2oursFails, dumpEmpty,
            olfactoryAnalysisReport_fromJson_toJson]

theorem runCondition_ours_split_over :
    runCondition tmplEmpty o1good o2oursFails dumpEmpty 4 4 "" ""
      "step1_visual_overinclusive.txt" "step2_olfactory_overinclusive.txt"
      = .ok olfEmpty := by
  norm_num [runCondition, step1_visual_analysis, step1Go, step1Render, tmplEmpty,
            o1good, decodeVisual, visualAnalysisReport_fromJson_toJson,
            coverageValid, lastTimestamp, visOne, visReport, mkFrame, pyInt,
            renderWithFallback, renderTemplate, step2_olfactory_inference,
            step2Render, o2oursFails, dumpEmpty,
            olfactoryAnalysisReport_fromJson_toJson]
  simp [olfactoryAnalysisReport_fromJson_toJson]

theorem runCondition_ours_split_naive :
    runCondition tmplEmpty o1good o2oursFails dumpEmpty 4 4 "" ""
      "step1_visual_naive.txt" "step2_olfactory_naive.txt"
      = .ok olfEmpty := by
  norm_num [runCondition, step1_visual_analysis, step1Go, step1Render, tmplEmpty,
            o1good, decodeVisual, visualAnalysisReport_fromJson_toJson,
            coverageValid, lastTimestamp, visOne, visReport, mkFrame, pyInt,
            renderWithFallback, renderTemplate, step2_olfactory_inference,
            step2Render, o2oursFails, dumpEmpty,
            olfactoryAnalysisReport_fromJson_toJson]
  simp [olfactoryAnalysisReport_fromJson_toJson]

/-! ## Claim theorems -/

/-- C1: Stage-1 coverage validation accepts a response with a non-empty
`frame_log` iff the last-timestamp ratio reaches 0.95 and the entry count
reaches 80% of `expected_entries`; an empty `frame_log` is always
rejected; `expected_entries = int(frame_count / fps)` coincides with the
floor; at `estimated_duration = 10`, `fps = 4` (`expected_entries = 10`),
a response with last timestamp 9.6 and 9 entries is accepted while one
with last timestamp 9.0 is rejected and triggers a retry (the attempt
trace is `[1, 2]`). -/
theorem step1_coverage_gate :
    (∀ (lg : List VisualFrameAnalysis) (dur : ℚ) (expected : ℤ),
        lg ≠ [] → 0 < dur →
        (coverageValid lg dur expected = true ↔
          (lastTimestamp lg / dur ≥ 95 / 100 ∧
           (lg.length : ℚ) ≥ (expected : ℚ) * (8 / 10)))) ∧
    (∀ (dur : ℚ) (expected : ℤ), coverageValid [] dur expected = false) ∧
    (∀ (n k : ℕ), pyInt ((n : ℚ) / (k : ℚ)) = ⌊(n : ℚ) / (k : ℚ)⌋) ∧
    coverageValid (ts96.map mkFrame) 10 10 = true ∧
    coverageValid (ts90.map mkFrame) 10 10 = false ∧
    (step1_visual_analysis [] oracle90 40 4 "").2 = [1, 2] := by
  refine ⟨?_, ?_, ?_, coverage_ts96_ok, coverage_ts90_rejected, ?_⟩
  · intro lg dur expected hne _hdur
    cases lg with
    | nil => exact absurd rfl hne
    | cons a t =>
      simp [coverageValid, Bool.and_eq_true, decide_eq_true_eq, ge_iff_le]
  · intro dur expected
    rfl
  · intro n k
    have h : (0 : ℚ) ≤ (n : ℚ) / (k : ℚ) :=
      div_nonneg (Nat.cast_nonneg n) (Nat.cast_nonneg k)
    simp [pyInt, h]
  · norm_num [step1_visual_analysis, step1Go, step1Render, decodeVisual,
      oracle90, renderWithFallback, renderTemplate, pyInt, visReport,
      visualAnalysisReport_fromJson_toJson, coverageValid, lastTimestamp,
      ts90, ts96, mkFrame]

theorem step1_coverage_gate_witness :
    (ts96.map mkFrame ≠ []) ∧ ((0 : ℚ) < 10) ∧
    (coverageValid (ts96.map mkFrame) 10 10 = true ↔
      (lastTimestamp (ts96.map mkFrame) / 10 ≥ 95 / 100 ∧
       ((ts96.map mkFrame).length : ℚ) ≥ ((10 : ℤ) : ℚ) * (8 / 10))) :=
  ⟨by simp [ts96], by norm_num,
   step1_coverage_gate.1 (ts96.map mkFrame) 10 10 (by simp [ts96]) (by norm_num)⟩

/-- C2: when the template renders and every attempt's response parses but
fails coverage validation, Stage 1 makes exactly the attempts 1, 2 and 3
and then returns the third attempt's (incomplete) report normally instead
of raising. -/
theorem step1_retry_ceiling (tmpl : Template) (reps : ℕ → VisualAnalysisReport)
    (frame_count fps : ℕ) (extra s0 : String)
    (hrender : step1Render tmpl fps ((frame_count : ℚ) / (fps : ℚ))
        (pyInt ((frame_count : ℚ) / (fps : ℚ))) extra = .ok s0)
    (hcov : ∀ a : ℕ, coverageValid (reps a).frame_log
        ((frame_count : ℚ) / (fps : ℚ))
        (pyInt ((frame_count : ℚ) / (fps : ℚ))) = false) :
    step1_visual_analysis tmpl (fun a => .text (reps a).toJson)
      frame_count fps extra = (.ok (reps 3), [1, 2, 3]) := by
  simp [step1_visual_analysis, step1Go, hrender, decodeVisual,
        visualAnalysisReport_fromJson_toJson, hcov]

theorem step1_retry_ceiling_witness :
    step1_visual_analysis [] (fun _ => .text (visReport ts90).toJson) 40 4 ""
      = (.ok (visReport ts90), [1, 2, 3]) :=
  step1_retry_ceiling [] (fun _ => visReport ts90) 40 4 "" "" rfl
    coverage_ts90_all_attempts

/-- C3: when the template renders and every attempt raises — a transport
error, an empty response or a non-conforming response — Stage 1 makes
exactly the attempts 1, 2 and 3 and propagates the third attempt's error
to the caller; the three failure shapes decode to the `transport`,
`emptyResponse` and `schemaViolation` errors respectively. -/
theorem step1_error_propagation (tmpl : Template) (oracle : ℕ → VLMResponse)
    (frame_count fps : ℕ) (extra s0 : String) (e : ℕ → PipeError)
    (hrender : step1Render tmpl fps ((frame_count : ℚ) / (fps : ℚ))
        (pyInt ((frame_count : ℚ) / (fps : ℚ))) extra = .ok s0)
    (herr : ∀ a : ℕ, decodeVisual (oracle a) = .error (e a)) :
    step1_visual_analysis tmpl oracle frame_count fps extra
      = (.error (e 3), [1, 2, 3]) ∧
    decodeVisual .failure = .error .transport ∧
    decodeVisual .empty = .error .emptyResponse ∧
    (∀ j : Json, VisualAnalysisReport.fromJson? j = none →
      decodeVisual (.text j) = .error .schemaViolation) := by
  refine ⟨?_, rfl, rfl, ?_⟩
  · simp [step1_visual_analysis, step1Go, hrender, herr]
  · intro j hj
    simp [decodeVisual, hj]

theorem step1_error_propagation_witness :
    step1_visual_analysis [] (fun _ => .empty) 40 4 ""
      = (.error .emptyResponse, [1, 2, 3]) :=
  (step1_error_propagation [] (fun _ => .empty) 40 4 "" ""
    (fun _ => .emptyResponse) rfl (fun _ => rfl)).1

/-- C4: Stage 2 makes at most one provider call; once its prompt renders,
a transport failure, an empty response and a non-conforming response each
yield an immediate error after exactly one call — there is no retry. -/
theorem step2_single_attempt :
    (∀ (tmpl : Template) (vj rules : String) (resp : VLMResponse),
       (step2_olfactory_inference tmpl vj rules resp).2 ≤ 1) ∧
    (∀ (tmpl : Template) (vj rules s0 : String),
       step2Render tmpl vj rules = .ok s0 →
       step2_olfactory_inference tmpl vj rules .failure
         = (.error .transport, 1)) ∧
    (∀ (tmpl : Template) (vj rules s0 : String),
       step2Render tmpl vj rules = .ok s0 →
       step2_olfactory_inference tmpl vj rules .empty
         = (.error .emptyResponse, 1)) ∧
    (∀ (tmpl : Template) (vj rules s0 : String) (j : Json),
       step2Render tmpl vj rules = .ok s0 →
       OlfactoryAnalysisReport.fromJson? j = none →
       step2_olfactory_inference tmpl vj rules (.text j)
         = (.error .schemaViolation, 1)) := by
  refine ⟨?_, ?_, ?_, ?_⟩
  · intro tmpl vj rules resp
    rcases except_ok_or_error (step2Render tmpl vj rules) with ⟨s, hs⟩ | ⟨k, hk⟩
    · cases resp with
      | failure => simp [step2_olfactory_inference, hs]
      | empty => simp [step2_olfactory_inference, hs]
      | text j =>
        cases hj : OlfactoryAnalysisReport.fromJson? j <;>
          simp [step2_olfactory_inference, hs, hj]
    · simp [step2_olfactory_inference, hk]
  · intro tmpl vj rules s0 h
    simp [step2_olfactory_inference, h]
  · intro tmpl vj rules s0 h
    simp [step2_olfactory_inference, h]
  · intro tmpl vj rules s0 j h hj
    simp [step2_olfactory_inference, h, hj]

theorem step2_single_attempt_witness :
    step2_olfactory_inference [] "" "" .empty = (.error .emptyResponse, 1) :=
  step2_single_attempt.2.2.1 [] "" "" "" rfl

/-- C5 (counterexample): `OlfactoryAnalysisReport` validation accepts the
concrete document `c5Doc`, whose only event has `end_s = 1 < 5 = start_s`
and proximity coverage fractions 2 and -1 outside `[0, 1]`; the claimed
invariant therefore does not hold of all accepted documents. -/
theorem olfactory_invariant_cex :
    ¬ (∀ (j : Json) (r : OlfactoryAnalysisReport),
        OlfactoryAnalysisReport.fromJson? j = some r →
        ∀ ev ∈ r.olfactory_events,
          ev.evidence_ref.interval_time.start_s
            ≤ ev.evidence_ref.interval_time.end_s ∧
          ∀ p, ev.evidence_ref.proximity = some p →
            0 ≤ p.frame_coverage_start ∧ p.frame_coverage_start ≤ 1 ∧
            0 ≤ p.frame_coverage_end ∧ p.frame_coverage_end ≤ 1) := by
  intro hclaim
  have hparse : OlfactoryAnalysisReport.fromJson? c5Doc
      = some (intervalReport 5 1 2 (-1)) :=
    olfactoryAnalysisReport_fromJson_toJson _
  have h := hclaim c5Doc (intervalReport 5 1 2 (-1)) hparse
  simp [intervalReport] at h

/-- C5 (amended): `OlfactoryAnalysisReport` validation is purely
structural — it accepts a report document with any interval endpoints and
any proximity coverage fractions, so neither `end_s ≥ start_s` nor the
`[0, 1]` range is enforced by the schema; accepted documents satisfy the
invariants only when the document already does. -/
theorem olfactory_validation_structural (s e c1 c2 : ℚ) :
    OlfactoryAnalysisReport.fromJson? (intervalDoc s e c1 c2)
      = some (intervalReport s e c1 c2) :=
  olfactoryAnalysisReport_fromJson_toJson _

/-- C8: serializing any `OlfactoryAnalysisReport` to its JSON document
form and parsing the document back yields the original report, field for
field. -/
theorem olfactory_report_roundtrip (r : OlfactoryAnalysisReport) :
    OlfactoryAnalysisReport.fromJson? r.toJson = some r :=
  olfactoryAnalysisReport_fromJson_toJson r

/-- C9: a Stage-1 template whose render fails under both variable sets is
fatal: Stage 1 surfaces the `templateRender` error immediately, making no
provider call and consuming no retry attempt (the attempt trace is empty);
the fallback render fails exactly when the full-set render and the
reduced-set render both fail. -/
theorem template_render_fatal (tmpl : Template) (oracle : ℕ → VLMResponse)
    (frame_count fps : ℕ) (extra k : String)
    (hfail : step1Render tmpl fps ((frame_count : ℚ) / (fps : ℚ))
        (pyInt ((frame_count : ℚ) / (fps : ℚ))) extra = .error k) :
    step1_visual_analysis tmpl oracle frame_count fps extra
      = (.error (.templateRender k), []) ∧
    (∀ (t : Template) (full reduced : List (String × String)) (k' : String),
       renderWithFallback t full reduced = .error k' ↔
         ((∃ k0, renderTemplate t full = .error k0) ∧
          renderTemplate t reduced = .error k')) := by
  constructor
  · simp [step1_visual_analysis, step1Go, hfail]
  · intro t full reduced k'
    unfold renderWithFallback
    rcases except_ok_or_error (renderTemplate t full) with ⟨s, hs⟩ | ⟨k0, hk0⟩
    · rw [hs]
      simp [hs]
    · rw [hk0]
      simp [hk0]

theorem template_render_fatal_witness :
    step1_visual_analysis [TemplateChunk.var "bogus"] oracle90 40 4 ""
      = (.error (.templateRender "bogus"), []) :=
  (template_render_fatal [TemplateChunk.var "bogus"] oracle90 40 4 ""
    "bogus" rfl).1

theorem lookupVar_s1_subset (v1 v2 v3 v4 : String) :
    ∀ k v, lookupVar (s1ReducedVars v1 v2) k = some v →
      ∃ w, lookupVar (s1FullVars v1 v2 v3 v4) k = some w := by
  intro k v h
  simp only [s1ReducedVars, lookupVar] at h
  split_ifs at h with h1 h2
  · exact ⟨v1, by simp [s1FullVars, lookupVar, if_pos h1]⟩
  · exact ⟨v2, by simp [s1FullVars, lookupVar, if_neg h1, if_pos h2]⟩

theorem lookupVar_s2_subset (w1 w2 : String) :
    ∀ k v, lookupVar (s2ReducedVars w1) k = some v →
      ∃ w, lookupVar (s2FullVars w1 w2) k = some w := by
  intro k v h
  simp only [s2ReducedVars, lookupVar] at h
  split_ifs at h with h1
  · exact ⟨w1, by simp [s2FullVars, lookupVar, if_pos h1]⟩

/-- With the reduced variable set bound inside the full one, the fallback
renderer succeeds exactly when (and with the same output as) a single
full-set render. -/
theorem renderWithFallback_eq_full (full reduced : List (String × String))
    (hsub : ∀ k v, lookupVar reduced k = some v →
      ∃ w, lookupVar full k = some w) (t : Template) :
    ((∃ k, renderTemplate t full = .error k) →
      ∃ k', renderTemplate t reduced = .error k') ∧
    (∀ s, renderWithFallback t full reduced = .ok s ↔
      renderTemplate t full = .ok s) := by
  constructor
  · intro ⟨k, hk⟩
    rcases except_ok_or_error (renderTemplate t reduced) with ⟨s, hs⟩ | ⟨k', hk'⟩
    · obtain ⟨s', hs'⟩ := renderTemplate_ok_of_subset full reduced hsub t ⟨s, hs⟩
      rw [hs'] at hk
      cases hk
    · exact ⟨k', hk'⟩
  · intro s
    unfold renderWithFallback
    rcases except_ok_or_error (renderTemplate t full) with ⟨s', hs'⟩ | ⟨k, hk⟩
    · rw [hs']
    · rw [hk]
      constructor
      · intro hred
        obtain ⟨s'', hs''⟩ :=
          renderTemplate_ok_of_subset full reduced hsub t ⟨s, hred⟩
        rw [hs''] at hk
        cases hk
      · intro h
        cases h

/-- C10: at both call sites' variable sets, the reduced-set fallback can
never succeed where the full-set render failed (the reduced set is a
subset of the full one), so the renderer with fallback is success-wise
extensionally equivalent to a single render with the full variable set. -/
theorem render_fallback_equivalence :
    (∀ (t : Template) (v1 v2 v3 v4 : String),
       ((∃ k, renderTemplate t (s1FullVars v1 v2 v3 v4) = .error k) →
         ∃ k', renderTemplate t (s1ReducedVars v1 v2) = .error k') ∧
       (∀ s, renderWithFallback t (s1FullVars v1 v2 v3 v4)
           (s1ReducedVars v1 v2) = .ok s ↔
         renderTemplate t (s1FullVars v1 v2 v3 v4) = .ok s)) ∧
    (∀ (t : Template) (w1 w2 : String),
       ((∃ k, renderTemplate t (s2FullVars w1 w2) = .error k) →
         ∃ k', renderTemplate t (s2ReducedVars w1) = .error k') ∧
       (∀ s, renderWithFallback t (s2FullVars w1 w2)
           (s2ReducedVars w1) = .ok s ↔
         renderTemplate t (s2FullVars w1 w2) = .ok s)) :=
  ⟨fun t v1 v2 v3 v4 =>
     renderWithFallback_eq_full _ _ (lookupVar_s1_subset v1 v2 v3 v4) t,
   fun t w1 w2 =>
     renderWithFallback_eq_full _ _ (lookupVar_s2_subset w1 w2) t⟩

theorem render_fallback_equivalence_witness :
    ∃ k', renderTemplate [TemplateChunk.var "expected_entries",
        TemplateChunk.var "bogus"] (s1ReducedVars "a" "b") = .error k' :=
  (render_fallback_equivalence.1
    [TemplateChunk.var "expected_entries", TemplateChunk.var "bogus"]
    "a" "b" "c" "d").1 ⟨"bogus", rfl⟩

/-- C6 (counterexample): the standard orchestration mode
(`analyze_video_sequence`) performs no metadata stamping — a successful
concrete run returns a report carrying neither `source_video` nor
`generated_at`, so it is not the case that both modes stamp these keys. -/
theorem standard_mode_no_stamp_cex :
    analyze_video_sequence tmplEmpty o1good o2good dumpEmpty 4 4 "" ""
      = .ok olfEmpty ∧
    lookupField olfEmpty.meta "source_video" = none ∧
    lookupField olfEmpty.meta "generated_at" = none :=
  ⟨runCondition_good_eval "step1_visual.txt" "step2_olfactory.txt", rfl, rfl⟩

/-- C6 (amended): only the comparative mode stamps metadata: every artifact
it writes carries `source_video`, `generated_at` and
`experiment_condition` (non-empty whenever the video path and timestamp
are), stamped after inference and before serialization; the standard mode
(`analyze_video_sequence`) performs no stamping and returns the Stage-2
report unchanged. -/
theorem comparative_mode_stamps (tmplOf : String → Template)
    (o1 : String → ℕ → VLMResponse) (o2 : String → VLMResponse)
    (dump : VisualAnalysisReport → String) (frame_count fps : ℕ)
    (extra rules video now p1 p2 p3 : String)
    (hv : video ≠ "") (hn : now ≠ "") :
    (∀ out ∈ runComparative tmplOf o1 o2 dump frame_count fps extra rules
        video now p1 p2 p3,
      ∃ m, out.2.getField? "meta" = some (.obj m) ∧
        lookupField m "source_video" = some (.str video) ∧ video ≠ "" ∧
        lookupField m "generated_at" = some (.str now) ∧ now ≠ "" ∧
        ∃ cname, lookupField m "experiment_condition" = some (.str cname) ∧
          cname ≠ "") ∧
    (∀ r, runCondition tmplOf o1 o2 dump frame_count fps extra rules
        "step1_visual.txt" "step2_olfactory.txt" = .ok r →
      analyze_video_sequence tmplOf o1 o2 dump frame_count fps extra rules
        = .ok r) := by
  constructor
  · intro out hout
    rw [runComparative, List.mem_filterMap] at hout
    obtain ⟨c, hc, hmatch⟩ := hout
    have hname : c.name ≠ "" := by
      simp [experiments] at hc
      rcases hc with rfl | rfl | rfl <;> simp
    rcases except_ok_or_error (runCondition tmplOf o1 o2 dump frame_count fps
        extra rules c.visual_prompt c.olfactory_prompt) with ⟨r, hr⟩ | ⟨er, hr⟩
    · rw [hr] at hmatch
      simp only [Option.some_inj] at hmatch
      subst hmatch
      refine ⟨setKey (setKey (setKey r.meta "source_video" (.str video))
          "generated_at" (.str now)) "experiment_condition" (.str c.name),
        ?_, ?_, hv, ?_, hn, c.name, ?_, hname⟩
      · simp [OlfactoryAnalysisReport.toJson, stampMeta, Json.getField?,
              lookupField]
      · rw [lookupField_setKey_other _ _ _ _ (by decide),
            lookupField_setKey_other _ _ _ _ (by decide),
            lookupField_setKey_self]
      · rw [lookupField_setKey_other _ _ _ _ (by decide),
            lookupField_setKey_self]
      · rw [lookupField_setKey_self]
    · rw [hr] at hmatch
      cases hmatch
  · intro r hr
    exact hr

theorem comparative_mode_stamps_witness :
    ∃ m, (stampMeta olfEmpty "v.mp4" "t0"
        "OURS (System-generated Plan)").toJson.getField? "meta"
        = some (.obj m) ∧
      lookupField m "source_video" = some (.str "v.mp4") ∧ "v.mp4" ≠ "" ∧
      lookupField m "generated_at" = some (.str "t0") ∧ "t0" ≠ "" ∧
      ∃ cname, lookupField m "experiment_condition" = some (.str cname) ∧
        cname ≠ "" :=
  (comparative_mode_stamps tmplEmpty o1good o2good dumpEmpty 4 4 "" ""
      "v.mp4" "t0" "a.json" "b.json" "c.json" (by decide) (by decide)).1
    ("a.json", (stampMeta olfEmpty "v.mp4" "t0"
      "OURS (System-generated Plan)").toJson)
    (by simp [runComparative, experiments, List.filterMap,
              runCondition_good_eval])

/-- C7: comparative-mode failure isolation: for each of the three
experiment conditions, the loop writes that condition's stamped artifact
exactly when its own Stage-1/Stage-2 run succeeds — an exception in any
one condition is caught and only that condition is skipped, with the
other two conditions' artifacts written regardless (first conjunct, for
every combination of outcomes); in particular, when BASELINE_NAIVE fails
the OURS and BASELINE_OVERINCLUSIVE artifacts are still written, and when
OURS (the first condition) fails the two later conditions still run and
write theirs. -/
theorem comparative_isolation (tmplOf : String → Template)
    (o1 : String → ℕ → VLMResponse) (o2 : String → VLMResponse)
    (dump : VisualAnalysisReport → String) (frame_count fps : ℕ)
    (extra rules video now p1 p2 p3 : String) :
    (runComparative tmplOf o1 o2 dump frame_count fps extra rules
        video now p1 p2 p3
      = (match runCondition tmplOf o1 o2 dump frame_count fps extra rules
             "step1_visual.txt" "step2_olfactory.txt" with
         | .ok r => [(p1, (stampMeta r video now
                       "OURS (System-generated Plan)").toJson)]
         | .error _ => []) ++
        (match runCondition tmplOf o1 o2 dump frame_count fps extra rules
             "step1_visual_overinclusive.txt"
             "step2_olfactory_overinclusive.txt" with
         | .ok r => [(p2, (stampMeta r video now
                       "BASELINE 1 (Over-Inclusive)").toJson)]
         | .error _ => []) ++
        (match runCondition tmplOf o1 o2 dump frame_count fps extra rules
             "step1_visual_naive.txt" "step2_olfactory_naive.txt" with
         | .ok r => [(p3, (stampMeta r video now
                       "BASELINE 2 (Naive/Object-Based)").toJson)]
         | .error _ => [])) ∧
    (∀ (r1 r2 : OlfactoryAnalysisReport) (e : PipeError),
       runCondition tmplOf o1 o2 dump frame_count fps extra rules
         "step1_visual.txt" "step2_olfactory.txt" = .ok r1 →
       runCondition tmplOf o1 o2 dump frame_count fps extra rules
         "step1_visual_overinclusive.txt"
         "step2_olfactory_overinclusive.txt" = .ok r2 →
       runCondition tmplOf o1 o2 dump frame_count fps extra rules
         "step1_visual_naive.txt" "step2_olfactory_naive.txt" = .error e →
       runComparative tmplOf o1 o2 dump frame_count fps extra rules
           video now p1 p2 p3
         = [(p1, (stampMeta r1 video now
              "OURS (System-generated Plan)").toJson),
            (p2, (stampMeta r2 video now
              "BASELINE 1 (Over-Inclusive)").toJson)]) ∧
    (∀ (e : PipeError) (r2 r3 : OlfactoryAnalysisReport),
       runCondition tmplOf o1 o2 dump frame_count fps extra rules
         "step1_visual.txt" "step2_olfactory.txt" = .error e →
       runCondition tmplOf o1 o2 dump frame_count fps extra rules
         "step1_visual_overinclusive.txt"
         "step2_olfactory_overinclusive.txt" = .ok r2 →
       runCondition tmplOf o1 o2 dump frame_count fps extra rules
         "step1_visual_naive.txt" "step2_olfactory_naive.txt" = .ok r3 →
       runComparative tmplOf o1 o2 dump frame_count fps extra rules
           video now p1 p2 p3
         = [(p2, (stampMeta r2 video now
              "BASELINE 1 (Over-Inclusive)").toJson),
            (p3, (stampMeta r3 video now
              "BASELINE 2 (Naive/Object-Based)").toJson)]) := by
  refine ⟨?_, ?_, ?_⟩
  · rcases except_ok_or_error (runCondition tmplOf o1 o2 dump frame_count fps
        extra rules "step1_visual.txt" "step2_olfactory.txt") with
      ⟨r1, h1⟩ | ⟨e1, h1⟩ <;>
    rcases except_ok_or_error (runCondition tmplOf o1 o2 dump frame_count fps
        extra rules "step1_visual_overinclusive.txt"
        "step2_olfactory_overinclusive.txt") with ⟨r2, h2⟩ | ⟨e2, h2⟩ <;>
    rcases except_ok_or_error (runCondition tmplOf o1 o2 dump frame_count fps
        extra rules "step1_visual_naive.txt" "step2_olfactory_naive.txt") with
      ⟨r3, h3⟩ | ⟨e3, h3⟩ <;>
    simp [runComparative, experiments, List.filterMap, h1, h2, h3]
  · intro r1 r2 e h1 h2 h3
    simp [runComparative, experiments, List.filterMap, h1, h2, h3]
  · intro e r2 r3 h1 h2 h3
    simp [runComparative, experiments, List.filterMap, h1, h2, h3]

theorem comparative_isolation_witness :
    (runComparative tmplEmpty o1good o2naiveFails dumpEmpty 4 4 "" ""
        "v.mp4" "t0" "a.json" "b.json" "c.json"
      = [("a.json", (stampMeta olfEmpty "v.mp4" "t0"
           "OURS (System-generated Plan)").toJson),
         ("b.json", (stampMeta olfEmpty "v.mp4" "t0"
           "BASELINE 1 (Over-Inclusive)").toJson)]) ∧
    (runComparative tmplEmpty o1good o2oursFails dumpEmpty 4 4 "" ""
        "v.mp4" "t0" "a.json" "b.json" "c.json"
      = [("b.json", (stampMeta olfEmpty "v.mp4" "t0"
           "BASELINE 1 (Over-Inclusive)").toJson),
         ("c.json", (stampMeta olfEmpty "v.mp4" "t0"
           "BASELINE 2 (Naive/Object-Based)").toJson)]) :=
  ⟨(comparative_isolation tmplEmpty o1good o2naiveFails dumpEmpty 4 4 "" ""
      "v.mp4" "t0" "a.json" "b.json" "c.json").2.1 olfEmpty olfEmpty .transport
      runCondition_naive_split_ours runCondition_naive_split_over
      runCondition_naive_split_naive,
   (comparative_isolation tmplEmpty o1good o2oursFails dumpEmpty 4 4 "" ""
      "v.mp4" "t0" "a.json" "b.json" "c.json").2.2 .transport olfEmpty olfEmpty
      runCondition_ours_split_ours runCondition_ours_split_over
      runCondition_ours_split_naive⟩
